import Mathlib

/-!
Verification development for the Lizenzverweisgenerator repository.

The definitions below are a shallow embedding of the JavaScript sources:
the licence registry (an ordered array of Licence values whose match
patterns are regular expressions), the Commons Asset object, and the
questionnaire-page logic of QuestionnairePage (page transition targets,
click/keystroke handlers, answer logging).  Stateful handler code is
embedded as explicit state passing over the questionnaire state together
with a trace of emitted events (setValue/deleteValue calls, update and
goto triggers).  Parts of the repository that are referenced but whose
source is not available (the Licence class methods, QuestionnaireState
accessors, the registry find operation) are modelled from the
specification and marked as such in their doc comments.
-/

namespace LVG

/-! ## JavaScript regular expressions (shallow embedding)

The licence registry stores its match rules as JavaScript regular
expression literals.  We embed the regex constructs those literals use
(character literals, the dot, single negated character classes,
alternation, concatenation, star) and match with Brzozowski derivatives.
The dot is modelled as matching any character (the registry inputs are
licence template names, which contain no line terminators).
-/

inductive Regex : Type
| emp : Regex
| eps : Regex
| chr : Char → Regex
| dot : Regex
| nchr : Char → Regex
| alt : Regex → Regex → Regex
| cat : Regex → Regex → Regex
| star : Regex → Regex
deriving DecidableEq, Repr

def nullable : Regex → Bool
| Regex.emp => false
| Regex.eps => true
| Regex.chr _ => false
| Regex.dot => false
| Regex.nchr _ => false
| Regex.alt r₁ r₂ => nullable r₁ || nullable r₂
| Regex.cat r₁ r₂ => nullable r₁ && nullable r₂
| Regex.star _ => true

def deriv : Regex → Char → Regex
| Regex.emp, _ => Regex.emp
| Regex.eps, _ => Regex.emp
| Regex.chr c, d => if c = d then Regex.eps else Regex.emp
| Regex.dot, _ => Regex.eps
| Regex.nchr c, d => if c = d then Regex.emp else Regex.eps
| Regex.alt r₁ r₂, d => Regex.alt (deriv r₁ d) (deriv r₂ d)
| Regex.cat r₁ r₂, d =>
    if nullable r₁ then Regex.alt (Regex.cat (deriv r₁ d) r₂) (deriv r₂ d)
    else Regex.cat (deriv r₁ d) r₂
| Regex.star r, d => Regex.cat (deriv r d) (Regex.star r)

/-- Literal string regex: the concatenation of the characters of s. -/
def rstr (s : String) : Regex :=
  s.data.foldr (fun c r => Regex.cat (Regex.chr c) r) Regex.eps

/-- Regex combinator for the question mark (zero or one occurrence). -/
def ropt (r : Regex) : Regex := Regex.alt Regex.eps r

/-- Regex combinator for the plus (one or more occurrences). -/
def rplus (r : Regex) : Regex := Regex.cat r (Regex.star r)

/-- Concatenation of a list of regexes. -/
def rcats (rs : List Regex) : Regex := rs.foldr Regex.cat Regex.eps

/-- Decides whether some leading segment of s matches r and the
remaining characters satisfy endCond; this is the semantics of a
start-anchored JavaScript regex test, with endCond instantiated for the
trailing context the pattern demands (none, end of input, or a word
boundary). -/
def matchFromStart (r : Regex) (s : List Char) (endCond : List Char → Bool) : Bool :=
  match s with
  | [] => nullable r && endCond []
  | c :: cs => (nullable r && endCond (c :: cs)) || matchFromStart (deriv r c) cs endCond

/-- Decides whether r matches starting at any position of s; this is
the semantics of an unanchored JavaScript regex test. -/
def matchAnywhere (r : Regex) : List Char → Bool
  | [] => nullable r
  | c :: cs => matchFromStart r (c :: cs) (fun _ => true) || matchAnywhere r cs

/-- Word characters as used by the JavaScript word-boundary assertion. -/
def isWordChar (c : Char) : Bool := c.isAlpha || c.isDigit || c = '_'

/-! ## Licence registry (from the source array of Licence values)

Each registry entry carries an id, group tags, a display name, a match
pattern and an optional deed URL, exactly as in the source array.  All
registry regexes carry the i flag, so matching lowercases the input and
the patterns are written over lowercase characters.  The word-boundary
assertion occurs only at the end of the Public Domain pattern, where the
preceding matched character is always a word character, so it holds
exactly when the remaining input is empty or starts with a non-word
character. -/

inductive Pattern : Type
| fromStart : Regex → Pattern
| fromStartWB : Regex → Pattern
| fullMatch : Regex → Pattern
| anywhere : Regex → Pattern
| everything : Pattern
deriving DecidableEq, Repr

structure Licence : Type where
  id : String
  groups : List String
  name : String
  pattern : Pattern
  url : Option String
deriving DecidableEq, Repr

/-- Matching a licence template string against one registry entry.
Modelled from the spec: the Licence class itself is not among the given
sources; the spec describes its match rule as a regex-like pattern test
over the licence-template string, which we take to be the standard
JavaScript test of the stored pattern, and the empty pattern of the
designated unknown licence as accepting anything. -/
def licenceMatches (l : Licence) (s : String) : Bool :=
  let cs := s.data.map Char.toLower
  match l.pattern with
  | Pattern.fromStart r => matchFromStart r cs (fun _ => true)
  | Pattern.fromStartWB r =>
      matchFromStart r cs
        (fun rest => match rest with | [] => true | c :: _ => !isWordChar c)
  | Pattern.fullMatch r => matchFromStart r cs List.isEmpty
  | Pattern.anywhere r => matchAnywhere r cs
  | Pattern.everything => true

/-- Regex fragment (-|/) used by the DE licence patterns. -/
def dashSlash : Regex := Regex.alt (Regex.chr '-') (Regex.chr '/')

/-- Regex fragment (([^-]+.+|-migrated)*)? closing the plain CC
patterns before their end anchor. -/
def migratedTail : Regex :=
  ropt (Regex.star (Regex.alt
    (Regex.cat (rplus (Regex.nchr '-')) (rplus Regex.dot))
    (rstr "-migrated")))

/-- The ordered licence registry, entry for entry from the source
array.  The licence is detected by order: if an asset features multiple
licences, only the first one featured in this list is detected. -/
def LICENCES : List Licence := [
  { id := "PD", groups := ["pd"], name := "Public Domain",
    pattern := Pattern.fromStartWB
      (Regex.cat (ropt (rstr "bild-")) (Regex.alt (rstr "pd") (rstr "public domain"))),
    url := none },
  { id := "cc-zero", groups := ["cc", "cc0"], name := "CC0 1.0",
    pattern := Pattern.fromStart (Regex.alt (rstr "cc-zero") (rstr "bild-cc-0")),
    url := some "http://creativecommons.org/publicdomain/zero/1.0/legalcode/" },
  { id := "cc-by-2.0-de", groups := ["cc", "cc2", "cc2de", "ccby"], name := "CC BY 2.0 DE",
    pattern := Pattern.fromStart
      (rcats [rstr "cc-by", dashSlash, Regex.chr '2', Regex.dot, Regex.chr '0',
              dashSlash, rstr "de"]),
    url := some "http://creativecommons.org/licenses/by/2.0/de/legalcode/" },
  { id := "cc-by-3.0-de", groups := ["cc", "cc3", "ccby"], name := "CC BY 3.0 DE",
    pattern := Pattern.fromStart
      (rcats [rstr "cc-by", dashSlash, Regex.chr '3', Regex.dot, Regex.chr '0',
              dashSlash, rstr "de"]),
    url := some "http://creativecommons.org/licenses/by/3.0/de/legalcode/" },
  { id := "cc-by-3.0", groups := ["cc", "cc3", "ccby"], name := "CC BY 3.0",
    pattern := Pattern.fullMatch
      (rcats [rstr "cc-by-3", Regex.dot, Regex.chr '0', migratedTail]),
    url := some "http://creativecommons.org/licenses/by/3.0/legalcode/" },
  { id := "cc-by-4.0", groups := ["cc", "cc4", "ccby"], name := "CC BY 4.0",
    pattern := Pattern.fullMatch
      (rcats [rstr "cc-by-4", Regex.dot, Regex.chr '0', migratedTail]),
    url := some "http://creativecommons.org/licenses/by/4.0/legalcode/" },
  { id := "cc-by-sa-2.0-de", groups := ["cc", "cc2", "cc2de"], name := "CC BY-SA 2.0 DE",
    pattern := Pattern.fromStart
      (rcats [ropt (rstr "bild-"), rstr "cc-by-sa", dashSlash, Regex.chr '2', Regex.dot,
              Regex.chr '0', dashSlash, rstr "de"]),
    url := some "http://creativecommons.org/licenses/by-sa/2.0/de/legalcode/" },
  { id := "cc-by-sa-3.0-de", groups := ["cc", "cc3"], name := "CC BY-SA 3.0 DE",
    pattern := Pattern.fromStart
      (rcats [ropt (rstr "bild-"), rstr "cc-by-sa", dashSlash, Regex.chr '3', Regex.dot,
              Regex.chr '0', dashSlash, rstr "de"]),
    url := some "http://creativecommons.org/licenses/by-sa/3.0/de/legalcode/" },
  { id := "cc-by-sa-3.0", groups := ["cc", "cc3"], name := "CC BY-SA 3.0",
    pattern := Pattern.fullMatch
      (rcats [ropt (rstr "bild-"), rstr "cc-by-sa", dashSlash, Regex.chr '3', Regex.dot,
              Regex.chr '0', migratedTail]),
    url := some "http://creativecommons.org/licenses/by-sa/3.0/legalcode/" },
  { id := "cc-by-sa-4.0", groups := ["cc", "cc4"], name := "CC BY-SA 4.0",
    pattern := Pattern.fullMatch
      (rcats [ropt (rstr "bild-"), rstr "cc-by-sa", dashSlash, Regex.chr '4', Regex.dot,
              Regex.chr '0', migratedTail]),
    url := some "http://creativecommons.org/licenses/by-sa/4.0/legalcode/" },
  { id := "cc", groups := ["unsupported"], name := "CC",
    pattern := Pattern.anywhere (rstr "cc-by"), url := none },
  { id := "unknown", groups := ["unknown"], name := "Unknown",
    pattern := Pattern.everything, url := some "" }
]

/-- The designated unknown licence, the last registry entry. -/
def unknownLicence : Licence :=
  { id := "unknown", groups := ["unknown"], name := "Unknown",
    pattern := Pattern.everything, url := some "" }

/-- Registry lookup.  Modelled from the spec: the find operation is not
among the given sources; the spec describes it as iterating the ordered
licence list, returning the first entry whose match rule accepts the
input, and the designated unknown licence when none matches. -/
def find (s : String) : Licence :=
  match LICENCES.find? (fun l => licenceMatches l s) with
  | some l => l
  | none => unknownLicence

/-- Group membership test.  Modelled from the spec: Licence.isInGroup is
not among the given sources; the spec describes it as testing membership
of the tag in the licence's set of group tags. -/
def Licence.isInGroup (l : Licence) (tag : String) : Bool :=
  l.groups.contains tag

/-! ## Questionnaire state (Answer Store)

QuestionnaireState is not among the given sources.  Modelled from the
spec: the Answer Store maps a (step, answer) key to a recorded value; a
set records (overwriting any previous value for that key and leaving all
other keys untouched), a delete removes the entry so that querying it
afterward yields absence, and a value omitted on set records boolean
true. -/

/-- Recorded answer values: a chosen answer with no free text is stored
as boolean true, free text as a string. -/
inductive Value : Type
| bool : Bool → Value
| str : String → Value
deriving DecidableEq, Repr

abbrev AnswerKey := String × Nat

abbrev QState := List (AnswerKey × Value)

/-- Modelled from the spec: querying the Answer Store; absent keys yield
none. -/
def getValue : QState → String → Nat → Option Value
| [], _, _ => none
| (k, v) :: rest, page, answer =>
    if k = (page, answer) then some v else getValue rest page answer

/-- Modelled from the spec: deleting an entry restores the absent state
for that key and touches no other key. -/
def deleteValue : QState → String → Nat → QState
| [], _, _ => []
| (k, v) :: rest, page, answer =>
    if k = (page, answer) then deleteValue rest page answer
    else (k, v) :: deleteValue rest page answer

/-- Modelled from the spec: recording a value; the last write per key
wins and all other keys are untouched. -/
def setValue (st : QState) (page : String) (answer : Nat) (v : Value) : QState :=
  ((page, answer), v) :: deleteValue st page answer

/-! ## Events emitted by the questionnaire page handlers

The handlers of QuestionnairePage mutate the questionnaire state via
setValue/deleteValue and trigger update and goto events on the page.
We record every such operation, in order, in an event trace; the update
event carries the questionnaire state it is triggered with. -/

inductive Event : Type
| write : String → Nat → Value → Event
| remove : String → Nat → Event
| update : QState → Event
| goto : String → Event
deriving DecidableEq, Repr

/-- Embedding of QuestionnairePage._log: sets the value on the
questionnaire state (a value omitted in the source logs boolean true)
and then triggers the update event with the current state. -/
def log (st : QState) (page : String) (answer : Nat) (value : Option String) :
    QState × List Event :=
  let v := match value with
    | some s => Value.str s
    | none => Value.bool true
  let st' := setValue st page answer v
  (st', [Event.write page answer v, Event.update st'])

/-- Embedding of QuestionnairePage._removeFromLog: deletes the answer
from the questionnaire state. -/
def removeFromLog (st : QState) (page : String) (answer : Nat) : QState × List Event :=
  (deleteValue st page answer, [Event.remove page answer])

/-- Embedding of QuestionnairePage._goTo: triggers the goto event with
the target page. -/
def goTo (toPage : String) : List Event := [Event.goto toPage]

/-! ## The Commons Asset of the long questionnaire (first Asset source)

Authors are represented by their string form (the source joins them
with a separator when producing the string variant).  The Api
collaborator is represented by the only piece of it the embedded code
reads, its default wiki URL. -/

abbrev Author := String

structure Api : Type where
  defaultUrl : String
deriving DecidableEq, Repr

structure ImageInfo : Type where
  width : Nat
  height : Nat
  url : String
deriving DecidableEq, Repr

/-- One request issued to api.getImageInfo, with the arguments the
source passes. -/
structure ApiCall : Type where
  filename : String
  size : Nat
  wikiUrl : String
deriving DecidableEq, Repr

structure Asset : Type where
  prefFilename : String
  title : String
  mediaType : String
  licence : Option Licence
  api : Api
  authors : List Author
  attribution : Option String
  wikiUrl : String
  imageInfoCache : List (Nat × ImageInfo)
deriving DecidableEq, Repr

/-- JavaScript values as far as the embedded conditions inspect them:
the authors-format option and strict (in)equality comparisons. -/
inductive JsVal : Type
| undef : JsVal
| null : JsVal
| bool : Bool → JsVal
| str : String → JsVal
deriving DecidableEq, Repr

/-- JavaScript truthiness on the embedded values. -/
def truthy : JsVal → Bool
| JsVal.undef => false
| JsVal.null => false
| JsVal.bool b => b
| JsVal.str s => !(s == "")

/-- JavaScript strict equality on the embedded values: values of
different types are never strictly equal. -/
def strictEq : JsVal → JsVal → Bool
| JsVal.undef, JsVal.undef => true
| JsVal.null, JsVal.null => true
| JsVal.bool a, JsVal.bool b => a == b
| JsVal.str a, JsVal.str b => a == b
| _, _ => false

/-- Options object of getAuthors; an omitted options argument defaults
to an object without a format property. -/
structure GetAuthorsOptions : Type where
  format : JsVal := JsVal.undef
deriving DecidableEq, Repr

/-- Result of getAuthors: the stored authors array, or its joined
string form. -/
inductive AuthorsResult : Type
| arr : List Author → AuthorsResult
| str : String → AuthorsResult
deriving DecidableEq, Repr

/-- Embedding of Asset.getAuthors of the first Asset source: the source
guards the array branch with the condition that the negation of
options.format is strictly unequal to the string literal, and otherwise
joins the authors. -/
def Asset.getAuthors (a : Asset) (options : GetAuthorsOptions) : AuthorsResult :=
  if !(strictEq (JsVal.bool (!truthy options.format)) (JsVal.str "string")) then
    AuthorsResult.arr a.authors
  else
    AuthorsResult.str (String.intercalate "; " a.authors)

/-- Length as JavaScript reads it off the getAuthors result. -/
def AuthorsResult.lengthJS : AuthorsResult → Nat
| AuthorsResult.arr l => l.length
| AuthorsResult.str s => s.length

def Asset.getTitle (a : Asset) : String := a.title

def Asset.getLicence (a : Asset) : Option Licence := a.licence

def Asset.getWikiUrl (a : Asset) : String := a.wikiUrl

/-- Embedding of Asset.getUrl of the first Asset source. -/
def Asset.getUrl (a : Asset) : String :=
  "http:" ++ a.wikiUrl ++ "wiki/" ++ a.prefFilename

/-- The licence constructor argument: a Licence object, null (explicitly
accepted), or the falsy non-null values the guard rejects. -/
inductive LicenceParam : Type
| obj : Licence → LicenceParam
| null : LicenceParam
| undef : LicenceParam
| boolFalse : LicenceParam
deriving DecidableEq, Repr

/-- JavaScript truthiness test on a licence argument: only an object is
truthy. -/
def LicenceParam.falsy : LicenceParam → Bool
| LicenceParam.obj _ => false
| _ => true

/-- Strict comparison of a licence argument against null. -/
def LicenceParam.isNull : LicenceParam → Bool
| LicenceParam.null => true
| _ => false

/-- The optionalAttributes constructor argument: absent, a wiki-URL
string (the overloaded call form), or an attributes object. -/
inductive OptAttr : Type
| undef : OptAttr
| str : String → OptAttr
| obj : List Author → Option String → OptAttr
deriving DecidableEq, Repr

/-- The guard of the first Asset source's constructor: a required
parameter is falsy, where the licence is additionally let through when
it is strictly null. -/
def badParams (pf title mediaType : String) (licence : LicenceParam)
    (api : Option Api) : Bool :=
  pf == "" || title == "" || mediaType == ""
    || (licence.falsy && !licence.isNull) || api.isNone

/-- Embedding of the first Asset source's constructor.  A failing guard
throws before any state is initialized, embedded as an error result
carrying the thrown message.  The api argument is destructured first;
when the guard passes, api is necessarily present, so the hoisting does
not change the result.  When optionalAttributes is a string it is used
as the wiki URL and the attributes fall back to the empty object; the
stored wiki URL falls back to api.getDefaultUrl() when the resulting
wiki URL value is falsy. -/
def Asset.construct (pf title mediaType : String) (licence : LicenceParam)
    (api : Option Api) (optionalAttributes : OptAttr) (wikiUrl : Option String) :
    Except String Asset :=
  if badParams pf title mediaType licence api then
    Except.error "No proper initialization parameters specified"
  else
    match api with
    | none => Except.error "No proper initialization parameters specified"
    | some apiv =>
      let wikiUrlLocal : Option String :=
        match optionalAttributes with
        | OptAttr.str s => some s
        | _ => wikiUrl
      let oa : OptAttr :=
        match optionalAttributes with
        | OptAttr.str _ => OptAttr.undef
        | x => x
      Except.ok {
        prefFilename := pf
        title := title
        mediaType := mediaType
        licence := match licence with
          | LicenceParam.obj l => some l
          | _ => none
        api := apiv
        authors := match oa with
          | OptAttr.obj auths _ => auths
          | _ => []
        attribution := match oa with
          | OptAttr.obj _ att => att
          | _ => none
        wikiUrl := match wikiUrlLocal with
          | some s => if s == "" then apiv.defaultUrl else s
          | none => apiv.defaultUrl
        imageInfoCache := [] }

/-- Lookup in the per-size image-info cache (a JavaScript object keyed
by the requested size; stored image-info objects are truthy). -/
def lookupCache : List (Nat × ImageInfo) → Nat → Option ImageInfo
| [], _ => none
| (k, v) :: rest, size => if k = size then some v else lookupCache rest size

/-- Embedding of Asset.getImageInfo: on a cache hit the promise
resolves with the cached object and no api request is issued; on a miss
one request is issued with the asset's filename, the requested size and
the wiki URL, and a successful response is stored in the cache under
the requested size.  The result carries the settled promise value, the
asset after the call, and the list of api requests the call issued. -/
def Asset.getImageInfo (a : Asset)
    (apiFun : String → Nat → String → Except String ImageInfo) (imageSize : Nat) :
    Except String ImageInfo × Asset × List ApiCall :=
  match lookupCache a.imageInfoCache imageSize with
  | some info => (Except.ok info, a, [])
  | none =>
    match apiFun a.prefFilename imageSize a.wikiUrl with
    | Except.ok imageInfo =>
        (Except.ok imageInfo,
         { a with imageInfoCache := (imageSize, imageInfo) :: a.imageInfoCache },
         [{ filename := a.prefFilename, size := imageSize, wikiUrl := a.wikiUrl }])
    | Except.error e =>
        (Except.error e, a,
         [{ filename := a.prefFilename, size := imageSize, wikiUrl := a.wikiUrl }])

/-- A sequence of later getImageInfo calls, each with its own api
behavior and requested size, folded over the asset. -/
def runImageInfoCalls (a : Asset) :
    List ((String → Nat → String → Except String ImageInfo) × Nat) → Asset
| [] => a
| (apiFun, size) :: rest => runImageInfoCalls (a.getImageInfo apiFun size).2.1 rest

/-! ## The redesign Asset (second Asset source, app/Asset.js) -/

structure AppAsset : Type where
  title : String
  descriptions : Option (List (String × String))
  authors : Option (List Author)
  source : Option String
  attribution : Option String
deriving DecidableEq, Repr

/-- Result of the second source's getAuthors: the stored authors field
(which may be null), its joined string form, or the TypeError that
joining a null authors field would raise. -/
inductive AppAuthorsResult : Type
| field : Option (List Author) → AppAuthorsResult
| joined : String → AppAuthorsResult
| typeError : AppAuthorsResult
deriving DecidableEq, Repr

/-- Embedding of the second Asset source's getAuthors; the guard is the
same inverted conditional as in the first source. -/
def AppAsset.getAuthors (a : AppAsset) (options : GetAuthorsOptions) : AppAuthorsResult :=
  if !(strictEq (JsVal.bool (!truthy options.format)) (JsVal.str "string")) then
    AppAuthorsResult.field a.authors
  else
    match a.authors with
    | some auths => AppAuthorsResult.joined (String.intercalate "; " auths)
    | none => AppAuthorsResult.typeError

/-! ## QuestionnairePage logic (page transition targets and handlers) -/

/-- Whitespace as trimmed by the source's input evaluation. -/
def isJsSpace (c : Char) : Bool :=
  c = ' ' || c = '\t' || c = '\n' || c = '\r' || c = '\u000b' || c = '\u000c'
    || c = '\u00a0' || c = '\ufeff'

/-- Trimming of the raw input value before it is logged. -/
def jsTrim (s : String) : String :=
  ⟨((s.data.dropWhile isJsSpace).reverse.dropWhile isJsSpace).reverse⟩

/-- Embedding of the evaluateInput closure of _applyLogic: runs on every
keystroke of a free-text page; a non-empty trimmed value is logged as
answer 1, an empty one removes answer 1 from the log and logs answer 2.
The result carries the questionnaire state after the keystroke and the
events the keystroke emitted. -/
def evaluateInput (st : QState) (p : String) (inputVal : String) : QState × List Event :=
  let value := jsTrim inputVal
  if value ≠ "" then
    log st p 1 (some value)
  else
    let r1 := removeFromLog st p 1
    let r2 := log r1.1 p 2 none
    (r2.1, r1.2 ++ r2.2)

/-- The answer-1 transition target computed by _applyLogic on page 2
from the asset: the generic next step unless the asset misses authors,
title or URL, in that order. -/
def page2GoTo (a : Asset) : String :=
  if (a.getAuthors {}).lengthJS = 0 then "form-author"
  else if a.getTitle = "" then "form-title"
  else if a.getUrl = "" then "form-url"
  else "3"

/-- Embedding of the page-2 answer-1 click handler: logs the clicked
element's licence id as the value of answer 1 of page 2, then goes to
the computed target. -/
def page2A1Click (st : QState) (a : Asset) (licenceId : String) : QState × List Event :=
  let r := log st "2" 1 (some licenceId)
  (r.1, r.2 ++ goTo (page2GoTo a))

/-- Embedding of the page-3 answer-3 click handler: logs answer 3 (no
value, so boolean true), then goes to page 7 when the session's current
licence is in group cc2de and to the private-use result note
otherwise. -/
def page3A3Click (st : QState) (lic : Licence) : QState × List Event :=
  let r := log st "3" 3 none
  (r.1, r.2 ++ goTo (if lic.isInGroup "cc2de" then "7" else "result-note-privateUse"))

/-- Embedding of the click handler attached by _applyLogAndGoTo: logs
the answer on the current page (boolean true) and goes to the target
page. -/
def applyLogAndGoToClick (st : QState) (currentPage : String) (answer : Nat)
    (toPage : String) : QState × List Event :=
  let r := log st currentPage answer none
  (r.1, r.2 ++ goTo toPage)

/-- What _applyLogic leaves attached to an answer element: an optional
click handler and whether the disabled class was added. -/
structure AnswerBinding : Type where
  click : Option (QState → QState × List Event)
  disabled : Bool

/-- Embedding of the page-3 treatment of answer 4: when the session
result's attributionAlthoughExceptionalUse flag is set, _applyDisabled
is applied (no click handler, disabled class added); otherwise
_applyLogAndGoTo attaches the handler that logs answer 4 and goes to
page 5. -/
def page3Answer4Binding (attributionAlthoughExceptionalUse : Bool) : AnswerBinding :=
  if attributionAlthoughExceptionalUse then
    { click := none, disabled := true }
  else
    { click := some (fun st => applyLogAndGoToClick st "3" 4 "5"), disabled := false }

/-! ## Helper lemmas about the Answer Store -/

theorem getValue_deleteValue (st : QState) (p : String) (a : Nat) (p' : String) (a' : Nat) :
    getValue (deleteValue st p a) p' a'
      = if (p', a') = (p, a) then none else getValue st p' a' := by
  induction st with
  | nil => simp [deleteValue, getValue]
  | cons hd tl ih =>
    obtain ⟨k, v⟩ := hd
    by_cases hk : k = (p, a)
    · rw [show deleteValue ((k, v) :: tl) p a = deleteValue tl p a by simp [deleteValue, hk]]
      rw [ih]
      by_cases hq : (p', a') = (p, a)
      · simp [hq]
      · have hkq : ¬ k = (p', a') := by
          rw [hk]
          exact fun h => hq h.symm
        simp [getValue, hq, hkq]
    · rw [show deleteValue ((k, v) :: tl) p a = (k, v) :: deleteValue tl p a by
        simp [deleteValue, hk]]
      by_cases hkq : k = (p', a')
      · have hq : ¬ (p', a') = (p, a) := fun h => hk (hkq.trans h)
        simp [getValue, hkq, hq]
      · simp [getValue, hkq]
        rw [ih]
        by_cases hq : (p', a') = (p, a)
        · have hq2 : p' = p ∧ a' = a := by simpa [Prod.ext_iff] using hq
          simp [hq, hq2]
        · have hq2 : ¬ (p' = p ∧ a' = a) := by simpa [Prod.ext_iff] using hq
          simp [hq, hq2]

theorem getValue_setValue (st : QState) (p : String) (a : Nat) (v : Value)
    (p' : String) (a' : Nat) :
    getValue (setValue st p a v) p' a'
      = if (p', a') = (p, a) then some v else getValue st p' a' := by
  by_cases hq : (p', a') = (p, a)
  · simp [setValue, getValue, hq]
  · have hq' : ¬ (p, a) = (p', a') := fun h => hq h.symm
    simp [setValue, getValue, hq, hq']
    rw [getValue_deleteValue]
    simp [hq]

/-! ## Helper lemma: List.find? returns the first satisfying entry -/

theorem list_find?_first {α : Type} (p : α → Bool) (l : List α) :
    ∀ (i : Nat) (hi : i < l.length), p (l.get ⟨i, hi⟩) = true →
      ∃ k, ∃ hk : k < l.length, k ≤ i ∧ l.find? p = some (l.get ⟨k, hk⟩) ∧
        p (l.get ⟨k, hk⟩) = true ∧
        ∀ m, ∀ hm : m < k, p (l.get ⟨m, Nat.lt_trans hm hk⟩) = false := by
  induction l with
  | nil =>
    intro i hi _
    exact absurd hi (Nat.not_lt_zero i)
  | cons a t ih =>
    intro i hi hp
    cases ha : p a with
    | true =>
      refine ⟨0, Nat.succ_pos _, Nat.zero_le _, ?_, ?_, ?_⟩
      · simp [List.find?_cons, ha]
      · simpa using ha
      · intro m hm
        exact absurd hm (Nat.not_lt_zero m)
    | false =>
      cases i with
      | zero =>
        simp at hp
        rw [ha] at hp
        cases hp
      | succ i' =>
        have hi' : i' < t.length := Nat.lt_of_succ_lt_succ hi
        have hp' : p (t.get ⟨i', hi'⟩) = true := by simpa using hp
        obtain ⟨k, hk, hki, hfind, hpk, hmin⟩ := ih i' hi' hp'
        refine ⟨k + 1, Nat.succ_lt_succ hk, Nat.succ_le_succ hki, ?_, ?_, ?_⟩
        · simp [List.find?_cons, ha, hfind]
        · simpa using hpk
        · intro m hm
          cases m with
          | zero => simpa using ha
          | succ m' =>
            have hm' : m' < k := Nat.lt_of_succ_lt_succ hm
            simpa using hmin m' hm'

theorem LICENCES_nodup : LICENCES.Nodup :=
  List.Nodup.of_map Licence.id (by decide)

/-- C1: Licence lookup over the registry is deterministic and
order-sensitive.  The lookup always returns the first registry entry
whose pattern matches the input; hence when the patterns of two entries
both accept the string, the entry appearing later in the list is never
returned, and in particular the broad cc entry at position 10 (pattern
CC-BY, unanchored, case-insensitive), listed after the specific CC
variants, is returned only for strings that no earlier, more specific
pattern matches. -/
theorem find_respects_registry_order (s : String) :
    (∃ k, ∃ hk : k < LICENCES.length,
        find s = LICENCES.get ⟨k, hk⟩ ∧
        licenceMatches (LICENCES.get ⟨k, hk⟩) s = true ∧
        ∀ m, ∀ hm : m < k, licenceMatches (LICENCES.get ⟨m, Nat.lt_trans hm hk⟩) s = false) ∧
    (∀ i j, ∀ hij : i < j, ∀ hj : j < LICENCES.length,
        licenceMatches (LICENCES.get ⟨i, Nat.lt_trans hij hj⟩) s = true →
        licenceMatches (LICENCES.get ⟨j, hj⟩) s = true →
        find s ≠ LICENCES.get ⟨j, hj⟩) ∧
    (find s = LICENCES.get ⟨10, by decide⟩ →
        ∀ m, ∀ hm : m < 10,
          licenceMatches (LICENCES.get ⟨m, Nat.lt_trans hm (by decide)⟩) s = false) := by
  have hlast : licenceMatches (LICENCES.get ⟨11, by decide⟩) s = true := rfl
  obtain ⟨k, hk, hki, hfind, hpk, hmin⟩ :=
    list_find?_first (fun l => licenceMatches l s) LICENCES 11 (by decide) hlast
  have hfind_eq : find s = LICENCES.get ⟨k, hk⟩ := by
    unfold find
    rw [hfind]
  refine ⟨⟨k, hk, hfind_eq, hpk, hmin⟩, ?_, ?_⟩
  · intro i j hij hj hi _ heq
    have hkj : (⟨k, hk⟩ : Fin LICENCES.length) = ⟨j, hj⟩ :=
      LICENCES_nodup.get_inj_iff.1 (hfind_eq.symm.trans heq)
    have hkj' : k = j := congrArg Fin.val hkj
    have hik : i < k := by omega
    have hfalse := hmin i hik
    exact Bool.false_ne_true (hfalse.symm.trans hi)
  · intro hcc m hm
    have hkeq : (⟨k, hk⟩ : Fin LICENCES.length) = ⟨10, by decide⟩ :=
      LICENCES_nodup.get_inj_iff.1 (hfind_eq.symm.trans hcc)
    have hk10 : k = 10 := congrArg Fin.val hkeq
    have hmk : m < k := by omega
    exact hmin m hmk

/-- Witness for C1: both the specific CC BY-SA 3.0 entry (position 8)
and the broad cc entry (position 10) match the string CC-BY-SA-3.0, and
the lookup does not return the later, broad entry. -/
theorem find_respects_registry_order_witness :
    find "CC-BY-SA-3.0" ≠ LICENCES.get ⟨10, by decide⟩ :=
  (find_respects_registry_order "CC-BY-SA-3.0").2.1 8 10 (by decide) (by decide)
    (by decide) (by decide)

/-- C2: on page 2, clicking answer 1 records the clicked licence id as
the value of (page 2, answer 1) and then navigates; the target is
form-author when the asset's authors list is empty, form-title when
authors are present but the title is empty, form-url when authors and
title are present but the URL is empty, and page 3 when authors, title
and URL are all present and non-empty. -/
theorem page2_answer1_routing (st : QState) (a : Asset) (lid : String) :
    page2A1Click st a lid
      = (setValue st "2" 1 (Value.str lid),
         [Event.write "2" 1 (Value.str lid),
          Event.update (setValue st "2" 1 (Value.str lid)),
          Event.goto (page2GoTo a)])
    ∧ (a.authors = [] → page2GoTo a = "form-author")
    ∧ (a.authors ≠ [] → a.getTitle = "" → page2GoTo a = "form-title")
    ∧ (a.authors ≠ [] → a.getTitle ≠ "" → a.getUrl = "" → page2GoTo a = "form-url")
    ∧ (a.authors ≠ [] → a.getTitle ≠ "" → a.getUrl ≠ "" → page2GoTo a = "3") := by
  refine ⟨rfl, ?_, ?_, ?_, ?_⟩
  · intro h1
    simp [page2GoTo, Asset.getAuthors, AuthorsResult.lengthJS, strictEq, truthy, h1]
  · intro h1 h2
    simp [page2GoTo, Asset.getAuthors, AuthorsResult.lengthJS, strictEq, truthy, h1, h2]
  · intro h1 h2 h3
    simp [page2GoTo, Asset.getAuthors, AuthorsResult.lengthJS, strictEq, truthy, h1, h2, h3]
  · intro h1 h2 h3
    simp [page2GoTo, Asset.getAuthors, AuthorsResult.lengthJS, strictEq, truthy, h1, h2, h3]

/-- Witness for C2: a concrete asset without authors routes to
form-author, one with authors, title and URL routes to page 3. -/
theorem page2_answer1_routing_witness :
    page2GoTo { prefFilename := "File:Test.jpg", title := "Test", mediaType := "bitmap",
                licence := none, api := { defaultUrl := "//c.org/" }, authors := [],
                attribution := none, wikiUrl := "//c.org/", imageInfoCache := [] }
      = "form-author"
    ∧ page2GoTo { prefFilename := "File:Test.jpg", title := "Test", mediaType := "bitmap",
                  licence := none, api := { defaultUrl := "//c.org/" }, authors := ["Ann"],
                  attribution := none, wikiUrl := "//c.org/", imageInfoCache := [] }
      = "3" :=
  ⟨(page2_answer1_routing [] _ "cc").2.1 rfl,
   (page2_answer1_routing [] _ "cc").2.2.2.2 (by decide) (by decide) (by decide)⟩

/-- C3: on page 3, clicking answer 3 records answer 3 (boolean true)
and then navigates to page 7 exactly when the licence is in group
cc2de, and to the private-use result note otherwise; the emitted trace
depends on nothing but that group membership. -/
theorem page3_answer3_routing (st : QState) (lic : Licence) :
    page3A3Click st lic
      = (setValue st "3" 3 (Value.bool true),
         [Event.write "3" 3 (Value.bool true),
          Event.update (setValue st "3" 3 (Value.bool true)),
          Event.goto (if lic.isInGroup "cc2de" then "7" else "result-note-privateUse")])
    ∧ (lic.isInGroup "cc2de" = true →
        (page3A3Click st lic).2
          = [Event.write "3" 3 (Value.bool true),
             Event.update (setValue st "3" 3 (Value.bool true)),
             Event.goto "7"])
    ∧ (lic.isInGroup "cc2de" = false →
        (page3A3Click st lic).2
          = [Event.write "3" 3 (Value.bool true),
             Event.update (setValue st "3" 3 (Value.bool true)),
             Event.goto "result-note-privateUse"]) := by
  refine ⟨rfl, ?_, ?_⟩ <;> intro h <;> simp [page3A3Click, log, goTo, h]

/-- Witness for C3: the registry's CC BY 2.0 DE licence (in group
cc2de) routes to page 7, the CC BY 4.0 licence (not in the group)
routes to the private-use result note. -/
theorem page3_answer3_routing_witness :
    (page3A3Click [] (LICENCES.get ⟨2, by decide⟩)).2
      = [Event.write "3" 3 (Value.bool true),
         Event.update (setValue [] "3" 3 (Value.bool true)),
         Event.goto "7"]
    ∧ (page3A3Click [] (LICENCES.get ⟨5, by decide⟩)).2
      = [Event.write "3" 3 (Value.bool true),
         Event.update (setValue [] "3" 3 (Value.bool true)),
         Event.goto "result-note-privateUse"] :=
  ⟨(page3_answer3_routing [] (LICENCES.get ⟨2, by decide⟩)).2.1 (by decide),
   (page3_answer3_routing [] (LICENCES.get ⟨5, by decide⟩)).2.2 (by decide)⟩

/-- C4 counterexample: the claim says a non-empty keystroke clears a
previously logged empty marker (answer 2), but the source only logs
answer 1 in that branch; with answer 2 logged beforehand, a keystroke
with non-empty trimmed text leaves answer 2 logged. -/
theorem evaluateInput_counterexample :
    jsTrim "x" ≠ "" ∧
    getValue
        (evaluateInput (setValue [] "form-author" 2 (Value.bool true)) "form-author" "x").1
        "form-author" 2
      = some (Value.bool true) := by
  constructor
  · decide
  · decide

/-- C4 amended: on every keystroke of a free-text step, if the trimmed
text is non-empty it is logged as the value of answer 1 and answer 2 is
left untouched (not cleared); if the trimmed text is empty, answer 1 is
removed from the log and answer 2 is logged. -/
theorem evaluateInput_behavior (st : QState) (p : String) (input : String) :
    (jsTrim input ≠ "" →
        evaluateInput st p input
          = (setValue st p 1 (Value.str (jsTrim input)),
             [Event.write p 1 (Value.str (jsTrim input)),
              Event.update (setValue st p 1 (Value.str (jsTrim input)))])
        ∧ getValue (evaluateInput st p input).1 p 2 = getValue st p 2)
    ∧ (jsTrim input = "" →
        evaluateInput st p input
          = (setValue (deleteValue st p 1) p 2 (Value.bool true),
             [Event.remove p 1, Event.write p 2 (Value.bool true),
              Event.update (setValue (deleteValue st p 1) p 2 (Value.bool true))])
        ∧ getValue (evaluateInput st p input).1 p 1 = none) := by
  constructor
  · intro h
    have he : evaluateInput st p input
        = (setValue st p 1 (Value.str (jsTrim input)),
           [Event.write p 1 (Value.str (jsTrim input)),
            Event.update (setValue st p 1 (Value.str (jsTrim input)))]) := by
      simp [evaluateInput, log, h]
    refine ⟨he, ?_⟩
    rw [he]
    rw [getValue_setValue]
    simp
  · intro h
    have he : evaluateInput st p input
        = (setValue (deleteValue st p 1) p 2 (Value.bool true),
           [Event.remove p 1, Event.write p 2 (Value.bool true),
            Event.update (setValue (deleteValue st p 1) p 2 (Value.bool true))]) := by
      simp [evaluateInput, removeFromLog, log, h]
    refine ⟨he, ?_⟩
    rw [he]
    rw [getValue_setValue]
    simp [getValue_deleteValue]

/-- Witness for C4 amended: a keystroke with text logs it as answer 1;
a keystroke whose trimmed text is empty removes answer 1 and logs
answer 2. -/
theorem evaluateInput_behavior_witness :
    evaluateInput [] "form-author" "x"
      = (setValue [] "form-author" 1 (Value.str "x"),
         [Event.write "form-author" 1 (Value.str "x"),
          Event.update (setValue [] "form-author" 1 (Value.str "x"))])
    ∧ evaluateInput [] "form-author" " "
      = (setValue (deleteValue [] "form-author" 1) "form-author" 2 (Value.bool true),
         [Event.remove "form-author" 1, Event.write "form-author" 2 (Value.bool true),
          Event.update
            (setValue (deleteValue [] "form-author" 1) "form-author" 2 (Value.bool true))]) :=
  ⟨((evaluateInput_behavior [] "form-author" "x").1 (by decide)).1,
   ((evaluateInput_behavior [] "form-author" " ").2 (by decide)).1⟩

/-- C5: the click handler of the log-and-go shortcut first calls
setValue for the current page and answer, then emits the update event,
then the goto event, in exactly this order; the state carried by the
update event already contains the answer that triggered the
transition. -/
theorem applyLogAndGoTo_ordering (st : QState) (p : String) (answer : Nat)
    (toPage : String) :
    applyLogAndGoToClick st p answer toPage
      = (setValue st p answer (Value.bool true),
         [Event.write p answer (Value.bool true),
          Event.update (setValue st p answer (Value.bool true)),
          Event.goto toPage])
    ∧ getValue (setValue st p answer (Value.bool true)) p answer
        = some (Value.bool true) := by
  refine ⟨rfl, ?_⟩
  rw [getValue_setValue]
  simp

/-- C6: in both Asset implementations getAuthors always returns the
stored authors field and never the joined string: the inverted guard of
the array branch is true for every options value. -/
theorem getAuthors_always_array (a : Asset) (b : AppAsset) (options : GetAuthorsOptions) :
    a.getAuthors options = AuthorsResult.arr a.authors
    ∧ b.getAuthors options = AppAuthorsResult.field b.authors
    ∧ (∀ s, a.getAuthors options ≠ AuthorsResult.str s)
    ∧ (!(strictEq (JsVal.bool (!truthy options.format)) (JsVal.str "string"))) = true := by
  have hg : strictEq (JsVal.bool (!truthy options.format)) (JsVal.str "string") = false := rfl
  refine ⟨?_, ?_, ?_, ?_⟩
  · simp [Asset.getAuthors, hg]
  · simp [AppAsset.getAuthors, hg]
  · intro s
    simp [Asset.getAuthors, hg]
  · simp [hg]

/-- C7: on page 3 with the attributionAlthoughExceptionalUse flag set,
answer 4 gets no click handler and is marked disabled; with the flag
unset, its click handler records answer 4 and navigates to page 5. -/
theorem page3_answer4_disabled (flag : Bool) :
    (flag = true → page3Answer4Binding flag = { click := none, disabled := true })
    ∧ (flag = false →
        (page3Answer4Binding flag).disabled = false
        ∧ (page3Answer4Binding flag).click
            = some (fun st => applyLogAndGoToClick st "3" 4 "5")
        ∧ ∀ st, applyLogAndGoToClick st "3" 4 "5"
            = (setValue st "3" 4 (Value.bool true),
               [Event.write "3" 4 (Value.bool true),
                Event.update (setValue st "3" 4 (Value.bool true)),
                Event.goto "5"])) := by
  constructor
  · intro h
    simp [page3Answer4Binding, h]
  · intro h
    refine ⟨?_, ?_, fun st => rfl⟩ <;> simp [page3Answer4Binding, h]

/-- Witness for C7: both flag values instantiated. -/
theorem page3_answer4_disabled_witness :
    page3Answer4Binding true = { click := none, disabled := true }
    ∧ (page3Answer4Binding false).disabled = false :=
  ⟨(page3_answer4_disabled true).1 rfl, ((page3_answer4_disabled false).2 rfl).1⟩

/-! ## Helper lemmas about the image-info cache -/

theorem getImageInfo_cache_preserved (a : Asset)
    (apiFun : String → Nat → String → Except String ImageInfo) (s' s : Nat)
    (info : ImageInfo) (h : lookupCache a.imageInfoCache s = some info) :
    lookupCache ((a.getImageInfo apiFun s').2.1).imageInfoCache s = some info := by
  cases hc : lookupCache a.imageInfoCache s' with
  | some i =>
    simp [Asset.getImageInfo, hc]
    exact h
  | none =>
    cases ha : apiFun a.prefFilename s' a.wikiUrl with
    | ok i =>
      simp [Asset.getImageInfo, hc, ha, lookupCache]
      by_cases he : s' = s
      · rw [he] at hc
        rw [hc] at h
        cases h
      · simp [he]
        exact h
    | error e =>
      simp [Asset.getImageInfo, hc, ha]
      exact h

theorem runCalls_cache_preserved (s : Nat) (info : ImageInfo) :
    ∀ (calls : List ((String → Nat → String → Except String ImageInfo) × Nat)) (a : Asset),
      lookupCache a.imageInfoCache s = some info →
      lookupCache (runImageInfoCalls a calls).imageInfoCache s = some info
  | [], _, h => h
  | (apiFun, s') :: rest, a, h =>
      runCalls_cache_preserved s info rest ((a.getImageInfo apiFun s').2.1)
        (getImageInfo_cache_preserved a apiFun s' s info h)

/-- C8: getImageInfo keeps a per-size cache.  A call whose size is
cached resolves with the cached object and issues no api request; a
call on an uncached size issues exactly one request keyed by that size
and, on success, stores the response under that size; and once a size
is cached, it stays cached across any sequence of later calls, so every
later call with the same size resolves from the cache without issuing a
request. -/
theorem getImageInfo_per_size_cache (a : Asset)
    (apiFun : String → Nat → String → Except String ImageInfo) (s : Nat)
    (info : ImageInfo) :
    (lookupCache a.imageInfoCache s = some info →
        a.getImageInfo apiFun s = (Except.ok info, a, []))
    ∧ (lookupCache a.imageInfoCache s = none →
        apiFun a.prefFilename s a.wikiUrl = Except.ok info →
        a.getImageInfo apiFun s
          = (Except.ok info,
             { a with imageInfoCache := (s, info) :: a.imageInfoCache },
             [{ filename := a.prefFilename, size := s, wikiUrl := a.wikiUrl }])
        ∧ lookupCache ((a.getImageInfo apiFun s).2.1).imageInfoCache s = some info)
    ∧ (lookupCache a.imageInfoCache s = some info →
        ∀ calls, lookupCache (runImageInfoCalls a calls).imageInfoCache s = some info
          ∧ (runImageInfoCalls a calls).getImageInfo apiFun s
              = (Except.ok info, runImageInfoCalls a calls, [])) := by
  refine ⟨?_, ?_, ?_⟩
  · intro h
    simp [Asset.getImageInfo, h]
  · intro h ha
    constructor
    · simp [Asset.getImageInfo, h, ha]
    · simp [Asset.getImageInfo, h, ha, lookupCache]
  · intro h calls
    have hp := runCalls_cache_preserved s info calls a h
    exact ⟨hp, by simp [Asset.getImageInfo, hp]⟩

/-- Image info used by the cache witness. -/
def wInfo : ImageInfo := { width := 640, height := 480, url := "http://example.org/t.jpg" }

/-- Asset with a cached 640-pixel image info, used by the cache
witness. -/
def wAssetCached : Asset :=
  { prefFilename := "File:Test.jpg", title := "Test", mediaType := "bitmap",
    licence := none, api := { defaultUrl := "//c.org/" }, authors := [],
    attribution := none, wikiUrl := "//c.org/", imageInfoCache := [(640, wInfo)] }

/-- Witness for C8: with size 640 cached, the call resolves with the
cached object, changes nothing and issues no api request, even when the
api would fail. -/
theorem getImageInfo_per_size_cache_witness :
    wAssetCached.getImageInfo (fun _ _ _ => Except.error "network") 640
      = (Except.ok wInfo, wAssetCached, []) :=
  (getImageInfo_per_size_cache wAssetCached (fun _ _ _ => Except.error "network")
    640 wInfo).1 (by decide)

/-! ## Helper lemmas about getUrl and the page-2 target -/

theorem getUrl_ne_empty (a : Asset) : a.getUrl ≠ "" := by
  intro h
  have hlen := congrArg String.length h
  have e1 : String.length "http:" = 5 := rfl
  have e2 : String.length "wiki/" = 5 := rfl
  have e0 : String.length "" = 0 := rfl
  simp only [Asset.getUrl, String.length_append, e1, e2, e0] at hlen
  omega

theorem page2GoTo_cases (a : Asset) :
    page2GoTo a = "form-author" ∨ page2GoTo a = "form-title" ∨ page2GoTo a = "3" := by
  have hu := getUrl_ne_empty a
  by_cases h1 : (a.getAuthors {}).lengthJS = 0
  · left
    simp [page2GoTo, h1]
  · by_cases h2 : a.getTitle = ""
    · right
      left
      simp [page2GoTo, h1, h2]
    · right
      right
      simp [page2GoTo, h1, h2, hu]

theorem page2GoTo_ne_form_url (a : Asset) : page2GoTo a ≠ "form-url" := by
  rcases page2GoTo_cases a with h | h | h <;> rw [h] <;> decide

/-- C9: every asset accepted by the long-questionnaire constructor has
a non-empty URL (http: concatenated with the wiki URL, defaulted to the
api's default URL when absent, then wiki/ and the prefixed filename),
so the missing-URL check on page 2 never fires and the answer-1 target
is form-author, form-title or 3, never form-url. -/
theorem asset_url_never_missing (pf title mt : String) (lp : LicenceParam)
    (api : Option Api) (oa : OptAttr) (wu : Option String) (a : Asset)
    (h : Asset.construct pf title mt lp api oa wu = Except.ok a) :
    a.getUrl = "http:" ++ a.wikiUrl ++ "wiki/" ++ a.prefFilename
    ∧ a.getUrl ≠ ""
    ∧ page2GoTo a ≠ "form-url"
    ∧ (page2GoTo a = "form-author" ∨ page2GoTo a = "form-title" ∨ page2GoTo a = "3")
    ∧ (∀ apiv : Api, api = some apiv → wu = none → (∀ u, oa ≠ OptAttr.str u) →
        a.wikiUrl = apiv.defaultUrl) := by
  refine ⟨rfl, getUrl_ne_empty a, page2GoTo_ne_form_url a, page2GoTo_cases a, ?_⟩
  intro apiv hapi hwu hoa
  subst hapi
  subst hwu
  by_cases hb : badParams pf title mt lp (some apiv) = true
  · simp [Asset.construct, hb] at h
  · have hb' : badParams pf title mt lp (some apiv) = false := by
      simpa using hb
    cases oa with
    | undef =>
      simp [Asset.construct, hb'] at h
      rw [← h]
    | str u => exact absurd rfl (hoa u)
    | obj auths att =>
      simp [Asset.construct, hb'] at h
      rw [← h]

/-- Asset produced by the constructor witness for C9. -/
def wAssetBuilt : Asset :=
  { prefFilename := "File:Test.jpg", title := "Test", mediaType := "bitmap",
    licence := none, api := { defaultUrl := "//c.org/" }, authors := [],
    attribution := none, wikiUrl := "//c.org/", imageInfoCache := [] }

/-- Witness for C9: a concretely constructed asset (licence null, wiki
URL absent and hence defaulted) has a non-empty URL and a page-2 target
other than form-url. -/
theorem asset_url_never_missing_witness :
    wAssetBuilt.getUrl = "http:" ++ wAssetBuilt.wikiUrl ++ "wiki/" ++ wAssetBuilt.prefFilename
    ∧ wAssetBuilt.getUrl ≠ ""
    ∧ page2GoTo wAssetBuilt ≠ "form-url"
    ∧ (page2GoTo wAssetBuilt = "form-author" ∨ page2GoTo wAssetBuilt = "form-title"
        ∨ page2GoTo wAssetBuilt = "3")
    ∧ (∀ apiv : Api, some { defaultUrl := "//c.org/" } = some apiv → (none : Option String) = none →
        (∀ u, OptAttr.undef ≠ OptAttr.str u) → wAssetBuilt.wikiUrl = apiv.defaultUrl) :=
  asset_url_never_missing "File:Test.jpg" "Test" "bitmap" LicenceParam.null
    (some { defaultUrl := "//c.org/" }) OptAttr.undef none wAssetBuilt rfl

/-- Helper for C10: the constructor guard fires exactly for a falsy
prefixed filename, title, media type or api, or a licence argument that
is falsy without being null. -/
theorem badParams_iff (pf title mt : String) (lp : LicenceParam) (api : Option Api) :
    badParams pf title mt lp api = true
      ↔ (pf = "" ∨ title = "" ∨ mt = "" ∨ api = none
          ∨ lp = LicenceParam.undef ∨ lp = LicenceParam.boolFalse) := by
  cases lp <;> cases api <;>
    simp [badParams, LicenceParam.falsy, LicenceParam.isNull] <;> tauto

/-- C10: the long-questionnaire Asset constructor throws the
initialization error exactly when prefixedFilename, title, mediaType or
api is falsy, or the licence argument is falsy but not null; a null
licence is accepted, and on the accepting branch the constructor
returns an initialized asset. -/
theorem construct_guard (pf title mt : String) (lp : LicenceParam)
    (api : Option Api) (oa : OptAttr) (wu : Option String) :
    (Asset.construct pf title mt lp api oa wu
        = Except.error "No proper initialization parameters specified"
      ↔ (pf = "" ∨ title = "" ∨ mt = "" ∨ api = none
          ∨ lp = LicenceParam.undef ∨ lp = LicenceParam.boolFalse))
    ∧ (lp = LicenceParam.null → pf ≠ "" → title ≠ "" → mt ≠ "" → api ≠ none →
        ∃ a, Asset.construct pf title mt lp api oa wu = Except.ok a)
    ∧ (∀ l, lp = LicenceParam.obj l → pf ≠ "" → title ≠ "" → mt ≠ "" → api ≠ none →
        ∃ a, Asset.construct pf title mt lp api oa wu = Except.ok a) := by
  have hr := badParams_iff pf title mt lp api
  have hok : badParams pf title mt lp api = false →
      ∃ a, Asset.construct pf title mt lp api oa wu = Except.ok a := by
    intro hb
    cases api with
    | none =>
      simp [badParams] at hb
    | some apiv =>
      simp [Asset.construct, hb]
  refine ⟨?_, ?_, ?_⟩
  · by_cases hb : badParams pf title mt lp api = true
    · have h1 : Asset.construct pf title mt lp api oa wu
          = Except.error "No proper initialization parameters specified" := by
        simp [Asset.construct, hb]
      rw [h1]
      simp only [true_iff]
      exact hr.mp hb
    · obtain ⟨a, ha⟩ := hok (by simpa using hb)
      rw [ha]
      constructor
      · intro hcontra
        cases hcontra
      · intro hR
        exact absurd (hr.mpr hR) hb
  · intro hnull hpf ht hm hapi
    apply hok
    subst hnull
    cases hbb : badParams pf title mt LicenceParam.null api with
    | true =>
      exfalso
      rcases hr.mp hbb with hX | hX | hX | hX | hX | hX <;> simp_all
    | false => rfl
  · intro l hobj hpf ht hm hapi
    apply hok
    subst hobj
    cases hbb : badParams pf title mt (LicenceParam.obj l) api with
    | true =>
      exfalso
      rcases hr.mp hbb with hX | hX | hX | hX | hX | hX <;> simp_all
    | false => rfl

/-- Witness for C10: a null licence with all required parameters
present constructs successfully, and a missing api makes the
constructor throw the initialization error. -/
theorem construct_guard_witness :
    (∃ a, Asset.construct "File:Test.jpg" "Test" "bitmap" LicenceParam.null
        (some { defaultUrl := "//c.org/" }) OptAttr.undef none = Except.ok a)
    ∧ (Asset.construct "File:Test.jpg" "Test" "bitmap" LicenceParam.null
        none OptAttr.undef none
      = Except.error "No proper initialization parameters specified") :=
  ⟨(construct_guard "File:Test.jpg" "Test" "bitmap" LicenceParam.null
      (some { defaultUrl := "//c.org/" }) OptAttr.undef none).2.1
        rfl (by decide) (by decide) (by decide) (by decide),
   (construct_guard "File:Test.jpg" "Test" "bitmap" LicenceParam.null
      none OptAttr.undef none).1.mpr (by simp)⟩

end LVG
